import Mathlib

/-!
Verification of the Longshot concurrent redemption pipeline.

Shallow embedding of src/discord.rs, src/logging.rs, src/webhook.rs and
src/main.rs.  Wall-clock instants (std::time::Instant, chrono timestamps)
are modelled as natural numbers passed explicitly; HTTP responses are
oracle inputs, with none modelling a transport failure.  The modules
cache.rs, config.rs, matcher.rs and util.rs are not among the provided
sources; the few items from them that the embedded code touches are
modelled from the spec and marked as such.

The dedup mutex (seen_codes in HandlerInfo) is held by Handler::message for
the whole body of the if-let block, so concurrent executions of the event
pipeline are serialized over entire events; an arbitrary interleaving of N
concurrent deliveries is therefore equivalent to running the deliveries in
some arbitrary serial order, which is how runDeliveries models it.
-/

namespace Longshot

/-- Outcome of one redeem attempt (enum SnipeResult in src/discord.rs).
The spec names the DiscordError variant PlatformError. -/
inductive SnipeResult where
  | Success
  | FakeOrExpired
  | AlreadyRedeemed
  | RateLimited
  | DiscordError
  | ConnectionError
  | Unknown
  deriving DecidableEq, Repr

/-- Severity levels of the log crate, as used by LogBlock entries. -/
inductive Level where
  | Info
  | Warn
  | Error
  | Debug
  | Trace
  deriving DecidableEq, Repr

/-- One entry of a log block (struct LogMessage in src/logging.rs). -/
structure LogMessage where
  text : String
  level : Level
  is_success : Bool
  deriving DecidableEq, Repr

/-- Profile (src/discord.rs): display name, optional avatar hash, id. -/
structure Profile where
  username : String
  avatar : Option String
  id : String
  deriving DecidableEq, Repr

def Profile.get_avatar (p : Profile) : Option String := p.avatar

/-- Profile::face from src/discord.rs. -/
def Profile.face (p : Profile) : String :=
  match p.get_avatar with
  | none => "https://discordapp.com/assets/6debd47ed13483642cf09e832ed0bc1b.png"
  | some a => "https://cdn.discordapp.com/avatars/" ++ p.id ++ "/" ++ a ++ ".webp"

/-- LogBlock from src/logging.rs; the Instant field start and the elapsed
milliseconds are modelled on an explicit Nat clock. -/
structure LogBlock where
  messages : List LogMessage
  start : Nat
  profile : Profile
  elapsed : Option Nat
  deriving DecidableEq, Repr

/-- LogBlock::new: empty entry list, start at the current instant, no
elapsed value yet. -/
def LogBlock.new (profile : Profile) (now : Nat) : LogBlock :=
  { messages := [], start := now, profile := profile, elapsed := none }

/-- LogBlock::add_message: pushes one entry at the end. -/
def LogBlock.add_message (b : LogBlock) (level : Level) (text : String)
    (is_success : Bool) : LogBlock :=
  { b with messages := b.messages ++
      [LogMessage.mk text level is_success] }

/-- LogBlock::freeze_time: unconditionally stores the milliseconds elapsed
since start, overwriting any previously stored value. -/
def LogBlock.freeze_time (b : LogBlock) (now : Nat) : LogBlock :=
  { b with elapsed := some (now - b.start) }

/-- Modelled from the spec: Location (cache.rs is not among the provided
sources), a human-readable label for the channel and server of an event.
Location.defaultLoc models Location::default(), the default or unknown
location substituted when the lookup fails. -/
structure Location where
  label : String
  deriving DecidableEq, Repr

def Location.defaultLoc : Location := { label := "Unknown" }

/-- The single flushed output unit written by LogBlock::send: the header
(wall-clock time, profile name, resolved location, sender), every entry in
insertion order, and the elapsed milliseconds. -/
structure FlushedBlock where
  time : Nat
  profileName : String
  location : Location
  sender : String
  messages : List LogMessage
  elapsedMs : Nat
  deriving DecidableEq, Repr

/-- LogBlock::send from src/logging.rs: freezes the elapsed time when it is
still unset, substitutes the default location (appending an error entry)
when the lookup failed, and emits the flushed block.  The final unwrap of
the elapsed field is modelled by returning none when the field is none. -/
def LogBlock.send (b : LogBlock) (now : Nat)
    (location_cache : Except Unit Location) (sender : String) :
    Option (LogBlock × FlushedBlock) :=
  let b1 := if b.elapsed.isNone then b.freeze_time now else b
  let resolved : LogBlock × Location :=
    match location_cache with
    | .ok location => (b1, location)
    | .error _ =>
        (b1.add_message .Error "Failed requesting location for event." false,
         Location.defaultLoc)
  match resolved.1.elapsed with
  | some e =>
      some (resolved.1,
        { time := now, profileName := resolved.1.profile.username,
          location := resolved.2, sender := sender,
          messages := resolved.1.messages, elapsedMs := e })
  | none => none

/-- An HTTP response to the redeem request: status code, the canonical
reason phrase the HTTP library associates with that status, and the UTF-8
decoding of the streamed body (none when streaming or decoding fails). -/
structure HttpResponse where
  status : Nat
  canonicalReason : Option String
  body : Option String
  deriving DecidableEq, Repr

/-- The POST request built by Handler::make_request. -/
structure RedeemRequest where
  uri : String
  authorization : String
  contentLength : Nat
  deriving DecidableEq, Repr

/-- Modelled from the spec: the part of Config (config.rs is not among the
provided sources) that the embedded code reads: the main token, the guild
blacklist test, and the optional notification webhook URL. -/
structure Config where
  mainToken : String
  isGuildBlacklisted : Option Nat → Bool
  webhook : Option String

/-- Handler::make_request from src/discord.rs: builds the redeem POST
request (Authorization is the config's main token, Content-Length 0, empty
body), classifies the response, and appends the matching log entry.  The
resulting request, outcome, and log block are all returned. -/
def make_request (cfg : Config) (gift_code : String)
    (resp : Option HttpResponse) (log : LogBlock) :
    RedeemRequest × SnipeResult × LogBlock :=
  let request : RedeemRequest :=
    { uri := "https://discord.com/api/v9/entitlements/gift-codes/" ++
        gift_code ++ "/redeem",
      authorization := cfg.mainToken,
      contentLength := 0 }
  match resp with
  | some response =>
      if response.status = 200 then
        (request, .Success, log.add_message .Info "Yay! Claimed code!" true)
      else if response.status = 405 then
        (request, .DiscordError,
         log.add_message .Error "There was an error on Discord's side." false)
      else if response.status = 404 then
        (request, .FakeOrExpired,
         log.add_message .Warn "Code was fake or expired." false)
      else if response.status = 400 then
        (request, .AlreadyRedeemed,
         log.add_message .Error "Code was already redeemed." false)
      else if response.status = 429 then
        (request, .RateLimited,
         log.add_message .Warn "Rate-limited..." false)
      else
        let log1 := log.add_message .Error
          ("Received unknown response... (" ++ toString response.status ++
            (match response.canonicalReason with
             | some r => " " ++ r
             | none => "") ++ ")") false
        let log2 :=
          match response.body with
          | some b => log1.add_message .Error ("...with this body: " ++ b) false
          | none =>
              log1.add_message .Error
                "...and couldn't parse the body of the response." false
        (request, .Unknown, log2)
  | none =>
      (request, .ConnectionError,
       log.add_message .Warn "Connection failed. Check network connection!" false)

/-- A chat message as the pipeline reads it: identifiers of the message,
author, channel and optional guild, the author's display tag, and the raw
text content. -/
structure Message where
  id : Nat
  authorId : Nat
  authorTag : String
  channelId : Nat
  guildId : Option Nat
  content : String
  deriving DecidableEq, Repr

/-- Modelled from the spec: util.rs user_to_tag (util.rs is not among the
provided sources), the display tag of a message author. -/
def user_to_tag (m : Message) : String := m.authorTag

/-- One field of a webhook embed. -/
structure EmbedField where
  name : String
  value : String
  inlineFlag : Bool
  deriving DecidableEq, Repr

/-- The embed built by WebhookPayload::new: author (icon and name), title,
description, the two fields, footer (icon and text), timestamp, color. -/
structure Embed where
  authorIconUrl : String
  authorName : String
  title : String
  description : String
  fields : List EmbedField
  footerIconUrl : String
  footerText : String
  timestamp : Nat
  color : Nat
  deriving DecidableEq, Repr

/-- WebhookPayload from src/webhook.rs. -/
structure WebhookPayload where
  username : String
  avatar_url : String
  embeds : List Embed
  deriving DecidableEq, Repr

def WebhookPayload.get_longshot_avatar : String :=
  "https://yes.nighty.works/raw/IH8LqF.png"

/-- The Default impl of WebhookPayload. -/
def WebhookPayload.defaultPayload : WebhookPayload :=
  { username := "Longshot",
    avatar_url := WebhookPayload.get_longshot_avatar,
    embeds := [] }

/-- The build's package version string; it is read from the build
environment and is not part of the provided sources. -/
def cargoPkgVersion : String := "1.0.0"

/-- WebhookPayload::new from src/webhook.rs: chooses title, description and
color from the SnipeResult, fills the remaining embed fields from the
message and the finder profile, and wraps the single embed in the default
payload. -/
def WebhookPayload.new (message : Message) (finder : Profile)
    (result : SnipeResult) (now : Nat) : WebhookPayload :=
  let tdc : String × String × Nat :=
    match result with
    | .Success =>
        ("Yay! Claimed a Nitro!", "Nitro successfully claimed!", 0x43B581)
    | .FakeOrExpired =>
        ("Code was fake or expired",
         "The code was invalid or already expired.", 0xF04747)
    | .AlreadyRedeemed =>
        ("Code was already redeemed", "Someone beat us to it!", 0xF04747)
    | .RateLimited =>
        ("Rate Limited", "Rate-limited by Discord.", 0xF04747)
    | .DiscordError =>
        ("Discord Error", "There was an error on Discord's side.", 0xF04747)
    | .ConnectionError =>
        ("Connection Error", "Failed to connect to Discord.", 0xF04747)
    | .Unknown =>
        ("Unknown Response", "Received an unknown response from Discord.",
         0x000000)
  let embed : Embed :=
    { authorIconUrl := finder.face,
      authorName := finder.username,
      title := tdc.1,
      description := tdc.2.1,
      fields :=
        [{ name := "Code sent by:",
           value := "[" ++ user_to_tag message ++
             "](https://discord.com/users/" ++ toString message.authorId ++
             ")",
           inlineFlag := false },
         { name := "Message:",
           value := "[Posted here!](https://discordapp.com/channels/" ++
             (match message.guildId with
              | some g => toString g
              | none => "@me") ++ "/" ++ toString message.channelId ++ "/" ++
             toString message.id ++ ")",
           inlineFlag := false }],
      footerIconUrl := WebhookPayload.get_longshot_avatar,
      footerText := "Longshot " ++ cargoPkgVersion,
      timestamp := now,
      color := tdc.2.2 }
  { WebhookPayload.defaultPayload with embeds := [embed] }

/-- Atomic actions of one event's processing, in the order Handler::message
performs them.  lockAcquire and lockRelease delimit the scope of the
MutexGuard over seen_codes; in the source the guard is dropped when it goes
out of scope at the end of the enclosing if-let block. -/
inductive Action where
  | lockAcquire
  | insertCode (code : String)
  | redeem (code : String)
  | locate
  | flush
  | notify
  | lockRelease
  deriving DecidableEq, Repr

/-- One inbound delivery together with the environment's responses consumed
while processing it: the session profile whose handler receives it, the
redeem response, the location lookup result, and the wall-clock instants at
block creation, at freeze_time, and at send. -/
structure Delivery where
  profile : Profile
  msg : Message
  resp : Option HttpResponse
  loc : Except Unit Location
  t0 : Nat
  tFreeze : Nat
  tSend : Nat

/-- The observable result of one invocation of Handler::message: the dedup
set afterwards, the trace of actions, the flushed log block (none when no
block was flushed), and the outcome handed to the notification dispatcher
(none when nothing was dispatched). -/
structure StepResult where
  seen : List String
  trace : List Action
  flushed : Option FlushedBlock
  notified : Option SnipeResult

/-- Handler::message from src/discord.rs, for an initialized handler whose
profile is set: skips blacklisted guilds, extracts a candidate code via the
external matcher, locks the dedup set, discards already-seen codes, and
otherwise inserts the code, performs the redeem request, freezes the time,
resolves the location, flushes the log block, and dispatches the webhook
notification when one is configured.  The lock is released when the guard
goes out of scope at the end of the block. -/
def Handler.message (cfg : Config) (extractCode : Message → Option String)
    (seen : List String) (d : Delivery) : StepResult :=
  if cfg.isGuildBlacklisted d.msg.guildId then
    { seen := seen, trace := [], flushed := none, notified := none }
  else
    match extractCode d.msg with
    | none => { seen := seen, trace := [], flushed := none, notified := none }
    | some gift_code =>
        if gift_code ∈ seen then
          { seen := seen, trace := [.lockAcquire, .lockRelease],
            flushed := none, notified := none }
        else
          let seen' := gift_code :: seen
          let log0 := LogBlock.new d.profile d.t0
          let log1 := log0.add_message .Info
            ("Claiming code: " ++ gift_code ++ "!") false
          let r := make_request cfg gift_code d.resp log1
          let log2 := (r.2.2).freeze_time d.tFreeze
          let sent := log2.send d.tSend d.loc (user_to_tag d.msg)
          { seen := seen',
            trace := [.lockAcquire, .insertCode gift_code,
                .redeem gift_code, .locate, .flush] ++
              (if cfg.webhook.isSome then [Action.notify] else []) ++
              [.lockRelease],
            flushed := sent.map (fun p => p.2),
            notified := if cfg.webhook.isSome then some r.2.1 else none }

/-- Processing of a list of deliveries against the shared dedup set,
threading the set through and concatenating the traces.  Because the dedup
mutex is held for an entire event, any concurrent schedule of these
deliveries is equivalent to some serial order, which the list order
represents. -/
def runDeliveries (cfg : Config) (extractCode : Message → Option String)
    (seen : List String) : List Delivery → List String × List Action
  | [] => (seen, [])
  | d :: ds =>
      let r := Handler.message cfg extractCode seen d
      let rest := runDeliveries cfg extractCode r.seen ds
      (rest.1, r.trace ++ rest.2)

/-- Number of redeem requests issued for a given code in a trace. -/
def redeemCount (tr : List Action) (c : String) : Nat :=
  tr.countP (fun a => decide (a = Action.redeem c))

/-- Number of log-block flushes in a trace. -/
def flushCount (tr : List Action) : Nat :=
  tr.countP (fun a => decide (a = Action.flush))

/-- ProfileError from src/discord.rs; every variant is handled by
log_error_and_exit, i.e. is fatal at startup. -/
inductive ProfileError where
  | Unauthorized
  | RateLimited
  | ConnectionError
  | Other
  deriving DecidableEq, Repr

/-- get_profile_for_token from src/discord.rs.  The oracle input is none on
transport failure, otherwise the status code together with the streamed and
parsed body when the status is 200 (none when streaming the body fails; a
body that streams but does not parse makes the source process panic via
expect and is outside this model). -/
def get_profile_for_token (resp : Option (Nat × Option Profile)) :
    Except ProfileError Profile :=
  match resp with
  | some (status, body) =>
      if status = 200 then
        match body with
        | some profile => .ok profile
        | none => .error .Other
      else if status = 401 then .error .Unauthorized
      else if status = 429 then .error .RateLimited
      else .error .Other
  | none => .error .ConnectionError

/-- Consecutive deduplication, as Vec::dedup does after the sort in main. -/
def dedupConsecutive : List String → List String
  | [] => []
  | [a] => [a]
  | a :: b :: rest =>
      if a = b then dedupConsecutive (b :: rest)
      else a :: dedupConsecutive (b :: rest)

/-- The startup gate of main (src/main.rs): when the profile fetch fails,
ProfileError::handle exits the process before any session is created
(modelled as none); otherwise one session is attempted per sorted and
deduplicated sniping token, and the process also exits when that list is
empty. -/
def mainStartSessions (profileResult : Except ProfileError Profile)
    (snipingTokens : List String) : Option (List String) :=
  match profileResult with
  | .error _ => none
  | .ok _ =>
      let tokens := dedupConsecutive
        (snipingTokens.mergeSort (fun a b => decide (a ≤ b)))
      if tokens.isEmpty then none else some tokens

/-! Concrete fixtures used by witnesses and counterexamples. -/

def profileW : Profile := { username := "finder", avatar := none, id := "42" }

def cfgW : Config :=
  { mainToken := "MAIN-TOKEN",
    isGuildBlacklisted := fun _ => false,
    webhook := some "https://example.com/hook" }

def extractW : Message → Option String := fun m => some m.content

def msgW : Message :=
  { id := 1, authorId := 2, authorTag := "alice#1234", channelId := 3,
    guildId := some 4, content := "AbCdEfGhIjKlMnOp" }

def deliveryW : Delivery :=
  { profile := profileW, msg := msgW,
    resp := some { status := 200, canonicalReason := some "OK", body := none },
    loc := .ok { label := "guild - channel" },
    t0 := 100, tFreeze := 150, tSend := 160 }

def respW500 : HttpResponse :=
  { status := 500, canonicalReason := some "Internal Server Error",
    body := some "internal" }

/-- Modelled from the spec: the outcome table of section 4.3, written from
the spec's words as a function of the response; PlatformError is the spec's
name for SnipeResult.DiscordError. -/
def outcomeTableSpec : Option HttpResponse → SnipeResult
  | none => .ConnectionError
  | some r =>
      if r.status = 200 then .Success
      else if r.status = 405 then .DiscordError
      else if r.status = 404 then .FakeOrExpired
      else if r.status = 400 then .AlreadyRedeemed
      else if r.status = 429 then .RateLimited
      else .Unknown

/-- C2: the outcome classifier is a total, deterministic function of the
redeem response: 200 maps to Success, 405 to PlatformError (DiscordError),
404 to FakeOrExpired, 400 to AlreadyRedeemed, 429 to RateLimited, any other
status to Unknown with the body captured best-effort and an unparsable body
itself logged, and a transport failure to ConnectionError; being a function
of the response, each case maps to exactly one outcome. -/
theorem outcome_classifier_conforms (cfg : Config) (code : String)
    (log : LogBlock) (resp : Option HttpResponse) :
    (make_request cfg code resp log).2.1 = outcomeTableSpec resp ∧
    (∀ r : HttpResponse, resp = some r →
      r.status ≠ 200 → r.status ≠ 405 → r.status ≠ 404 → r.status ≠ 400 →
      r.status ≠ 429 →
      ∃ entry : LogMessage,
        (make_request cfg code resp log).2.2.messages =
          log.messages ++ [entry] ++
            [match r.body with
             | some b =>
                 LogMessage.mk ("...with this body: " ++ b) Level.Error false
             | none =>
                 LogMessage.mk
                   "...and couldn't parse the body of the response."
                   Level.Error false]) := by
  constructor
  · rcases resp with _ | r
    · rfl
    · simp only [make_request, outcomeTableSpec]
      split_ifs <;> rfl
  · rintro r rfl h200 h405 h404 h400 h429
    refine ⟨LogMessage.mk
      ("Received unknown response... (" ++ toString r.status ++
        (match r.canonicalReason with
         | some s => " " ++ s
         | none => "") ++ ")") Level.Error false, ?_⟩
    simp only [make_request, h200, h405, h404, h400, h429, if_false]
    rcases hb : r.body with _ | b <;>
      simp [LogBlock.add_message, List.append_assoc]

/-- C2 witness: a 500 response with a parsable body is classified Unknown
and its body is captured in the log. -/
theorem outcome_classifier_conforms_witness :
    (make_request cfgW "c" (some respW500) (LogBlock.new profileW 0)).2.1 =
      outcomeTableSpec (some respW500) ∧
    ∃ entry : LogMessage,
      (make_request cfgW "c" (some respW500)
          (LogBlock.new profileW 0)).2.2.messages =
        (LogBlock.new profileW 0).messages ++ [entry] ++
          [LogMessage.mk ("...with this body: " ++ "internal") Level.Error
            false] :=
  ⟨(outcome_classifier_conforms cfgW "c" (LogBlock.new profileW 0)
      (some respW500)).1,
   (outcome_classifier_conforms cfgW "c" (LogBlock.new profileW 0)
      (some respW500)).2 respW500 rfl (by decide) (by decide) (by decide)
      (by decide) (by decide)⟩

/-- A session as created by main: its own gateway credential together with
the shared handler state whose config carries the main token. -/
structure Session where
  credential : String
  cfg : Config

def sessionW : Session := { credential := "ALT-TOKEN", cfg := cfgW }

/-- C3 counterexample: a session whose own credential is ALT-TOKEN issues a
redeem request whose Authorization header is the config's main token
MAIN-TOKEN, not the session's own credential. -/
theorem redeem_auth_counterexample :
    (make_request sessionW.cfg "AbCdEfGhIjKlMnOp" none
        (LogBlock.new profileW 0)).1.authorization ≠ sessionW.credential ∧
    (make_request sessionW.cfg "AbCdEfGhIjKlMnOp" none
        (LogBlock.new profileW 0)).1.authorization =
      sessionW.cfg.mainToken := by
  exact ⟨by decide, rfl⟩

/-- C3 amended: every redeem request carries the config's main token in its
Authorization header (with the expected URI, empty body and Content-Length
0), independent of which session's event handler processes the message. -/
theorem redeem_request_carries_main_token (cfg : Config) (code : String)
    (resp : Option HttpResponse) (log : LogBlock) :
    (make_request cfg code resp log).1 =
      { uri := "https://discord.com/api/v9/entitlements/gift-codes/" ++
          code ++ "/redeem",
        authorization := cfg.mainToken,
        contentLength := 0 } := by
  rcases resp with _ | r
  · rfl
  · simp only [make_request]
    split_ifs <;> rfl

/-- C5 counterexample: freeze_time is not idempotent: on a block started at
instant 0, a first call at instant 5 records 5, and a second call at
instant 9 overwrites it with 9 instead of being a no-op. -/
theorem freeze_time_twice_counterexample :
    (((LogBlock.new profileW 0).freeze_time 5).freeze_time 9).elapsed ≠
      ((LogBlock.new profileW 0).freeze_time 5).elapsed ∧
    ((LogBlock.new profileW 0).freeze_time 5).freeze_time 9 ≠
      (LogBlock.new profileW 0).freeze_time 5 ∧
    ((LogBlock.new profileW 0).freeze_time 5).elapsed = some 5 ∧
    (((LogBlock.new profileW 0).freeze_time 5).freeze_time 9).elapsed =
      some 9 := by
  refine ⟨by decide, by decide, rfl, rfl⟩

/-- C5 amended: freeze_time unconditionally records the time elapsed since
the block's start, so a second call overwrites the first and the block ends
up with the second call's elapsed value (the first-call-wins guard lives in
LogBlock::send, not in freeze_time). -/
theorem freeze_time_overwrites (b : LogBlock) (t1 t2 : Nat) :
    (b.freeze_time t1).elapsed = some (t1 - b.start) ∧
    ((b.freeze_time t1).freeze_time t2).elapsed = some (t2 - b.start) ∧
    (b.freeze_time t1).freeze_time t2 = b.freeze_time t2 := by
  refine ⟨rfl, rfl, rfl⟩

/-- Modelled from the spec: the outcome to title/description/color table of
section 6. -/
def embedTableSpec : SnipeResult → String × String × Nat
  | .Success =>
      ("Yay! Claimed a Nitro!", "Nitro successfully claimed!", 0x43B581)
  | .FakeOrExpired =>
      ("Code was fake or expired", "The code was invalid or already expired.",
       0xF04747)
  | .AlreadyRedeemed =>
      ("Code was already redeemed", "Someone beat us to it!", 0xF04747)
  | .RateLimited => ("Rate Limited", "Rate-limited by Discord.", 0xF04747)
  | .DiscordError =>
      ("Discord Error", "There was an error on Discord's side.", 0xF04747)
  | .ConnectionError =>
      ("Connection Error", "Failed to connect to Discord.", 0xF04747)
  | .Unknown =>
      ("Unknown Response", "Received an unknown response from Discord.",
       0x000000)

/-- Replaces the three outcome-dependent embed fields by fixed values,
leaving every other part of the payload intact. -/
def WebhookPayload.eraseOutcome (p : WebhookPayload) : WebhookPayload :=
  { p with embeds := (p.embeds.map
      (fun e => { e with title := "", description := "", color := 0 })) }

/-- C7: the payload's single embed carries exactly the title, description
and color the fixed table assigns to the outcome, and nothing else in the
payload depends on the outcome: the top-level username and avatar are the
fixed dispatcher identity, and erasing title, description and color makes
payloads built from any two outcomes identical. -/
theorem webhook_embed_outcome_table (m : Message) (f : Profile)
    (r r' : SnipeResult) (now : Nat) :
    (WebhookPayload.new m f r now).embeds.map
        (fun e => (e.title, e.description, e.color)) = [embedTableSpec r] ∧
    (WebhookPayload.new m f r now).username =
      WebhookPayload.defaultPayload.username ∧
    (WebhookPayload.new m f r now).avatar_url =
      WebhookPayload.defaultPayload.avatar_url ∧
    (WebhookPayload.new m f r now).eraseOutcome =
      (WebhookPayload.new m f r' now).eraseOutcome := by
  cases r <;> cases r' <;> exact ⟨rfl, rfl, rfl, rfl⟩

/-- C9: the startup profile fetch classifies its result deterministically:
200 with a streamed body yields the parsed profile, 401 yields the fatal
unauthorized error, 429 the fatal rate-limited error, any other status or a
transport failure a fatal error; and on any error main exits before
creating a session, so sessions exist only when the fetch succeeded. -/
theorem profile_fetch_classification (p : Profile) (body : Option Profile)
    (tokens : List String) :
    get_profile_for_token (some (200, some p)) = .ok p ∧
    get_profile_for_token (some (200, none)) = .error .Other ∧
    get_profile_for_token (some (401, body)) = .error .Unauthorized ∧
    get_profile_for_token (some (429, body)) = .error .RateLimited ∧
    (∀ s : Nat, s ≠ 200 → s ≠ 401 → s ≠ 429 →
      get_profile_for_token (some (s, body)) = .error .Other) ∧
    get_profile_for_token none = .error .ConnectionError ∧
    (∀ e : ProfileError, mainStartSessions (.error e) tokens = none) ∧
    (∀ res : Except ProfileError Profile, ∀ started : List String,
      mainStartSessions res tokens = some started →
      ∃ pr : Profile, res = .ok pr) := by
  refine ⟨rfl, rfl, rfl, rfl, ?_, rfl, fun e => rfl, ?_⟩
  · intro s h200 h401 h429
    simp [get_profile_for_token, h200, h401, h429]
  · intro res started h
    rcases res with e | pr
    · simp [mainStartSessions] at h
    · exact ⟨pr, rfl⟩

/-- C9 witness: a 500 response is classified as the fatal Other error, and
with that error no session is started. -/
theorem profile_fetch_classification_witness :
    get_profile_for_token (some (500, none)) = .error .Other ∧
    mainStartSessions (.error .Other) ["t1", "t2"] = none :=
  ⟨(profile_fetch_classification profileW none ["t1", "t2"]).2.2.2.2.1 500
      (by decide) (by decide) (by decide),
   (profile_fetch_classification profileW none ["t1", "t2"]).2.2.2.2.2.2.1
      ProfileError.Other⟩

/-- C10: LogBlock::send never reaches the final unwrap with a missing
elapsed value: it first freezes the elapsed time itself when it is still
unset, so the flush always succeeds, the flushed block's elapsed value is
the already-frozen one when freeze_time had been called and the elapsed
time at the moment of the flush otherwise, and an already-frozen value is
left unchanged. -/
theorem send_always_flushes (b : LogBlock) (now : Nat)
    (loc : Except Unit Location) (sender : String) :
    (b.send now loc sender).isSome = true ∧
    (∀ p : LogBlock × FlushedBlock, b.send now loc sender = some p →
      p.2.elapsedMs = b.elapsed.getD (now - b.start) ∧
      p.1.elapsed = some (b.elapsed.getD (now - b.start))) := by
  rcases hb : b.elapsed with _ | e <;> rcases loc with u | l <;>
    simp [LogBlock.send, LogBlock.freeze_time, LogBlock.add_message, hb]

/-- C10 witness: sending a block frozen at 5 flushes with elapsed 5, also
when the location lookup failed. -/
theorem send_always_flushes_witness :
    (((LogBlock.new profileW 0).freeze_time 5).send 9 (.error ())
        "alice").isSome = true ∧
    (LogBlock.mk
        [LogMessage.mk "Failed requesting location for event." Level.Error
          false] 0 profileW (some 5),
      FlushedBlock.mk 9 "finder" Location.defaultLoc "alice"
        [LogMessage.mk "Failed requesting location for event." Level.Error
          false] 5).2.elapsedMs =
      ((LogBlock.new profileW 0).freeze_time 5).elapsed.getD (9 - 0) :=
  ⟨(send_always_flushes ((LogBlock.new profileW 0).freeze_time 5) 9
      (.error ()) "alice").1,
   ((send_always_flushes ((LogBlock.new profileW 0).freeze_time 5) 9
      (.error ()) "alice").2 _ rfl).1⟩

/-- C6: a delivery whose extracted code is already in the dedup set is
discarded right after the failed claim: the set is unchanged, the lock is
taken and released with no redeem, location lookup, flush or notify action
in between, no log block is flushed, and no notification is dispatched. -/
theorem duplicate_delivery_discarded (cfg : Config)
    (ec : Message → Option String) (seen : List String) (d : Delivery)
    (c : String) (hbl : cfg.isGuildBlacklisted d.msg.guildId = false)
    (hec : ec d.msg = some c) (hseen : c ∈ seen) :
    (Handler.message cfg ec seen d).seen = seen ∧
    (Handler.message cfg ec seen d).trace =
      [Action.lockAcquire, Action.lockRelease] ∧
    (Handler.message cfg ec seen d).flushed = none ∧
    (Handler.message cfg ec seen d).notified = none := by
  simp [Handler.message, hbl, hec, hseen]

/-- C6 witness: redelivering the fixture message after its code was claimed
leaves the set unchanged and produces no redeem, flush or notification. -/
theorem duplicate_delivery_discarded_witness :
    (Handler.message cfgW extractW ["AbCdEfGhIjKlMnOp"] deliveryW).seen =
      ["AbCdEfGhIjKlMnOp"] ∧
    (Handler.message cfgW extractW ["AbCdEfGhIjKlMnOp"] deliveryW).trace =
      [Action.lockAcquire, Action.lockRelease] ∧
    (Handler.message cfgW extractW ["AbCdEfGhIjKlMnOp"] deliveryW).flushed =
      none ∧
    (Handler.message cfgW extractW ["AbCdEfGhIjKlMnOp"] deliveryW).notified =
      none :=
  duplicate_delivery_discarded cfgW extractW ["AbCdEfGhIjKlMnOp"] deliveryW
    "AbCdEfGhIjKlMnOp" rfl rfl (by decide)

/-- True when, in the given trace, the dedup lock is released before any
downstream work of the pipeline (the redeem request, the location lookup,
the flush, or the notification dispatch) begins. -/
def lockReleasedBeforeDownstream : List Action → Bool
  | [] => true
  | .lockRelease :: _ => true
  | .redeem _ :: _ => false
  | .locate :: _ => false
  | .flush :: _ => false
  | .notify :: _ => false
  | _ :: rest => lockReleasedBeforeDownstream rest

/-- C4 counterexample: on the fixture delivery of a fresh code, the trace
acquires the lock and performs the redeem request, the location lookup, the
flush and the notification dispatch before releasing it, so the claim that
the lock is released before any downstream I/O fails. -/
theorem lock_scope_counterexample :
    (Handler.message cfgW extractW [] deliveryW).trace =
      [Action.lockAcquire, Action.insertCode "AbCdEfGhIjKlMnOp",
       Action.redeem "AbCdEfGhIjKlMnOp", Action.locate, Action.flush,
       Action.notify, Action.lockRelease] ∧
    lockReleasedBeforeDownstream
      (Handler.message cfgW extractW [] deliveryW).trace = false := by
  exact ⟨rfl, rfl⟩

/-- C4 amended: for every delivery that wins the claim, the dedup lock is
held across the entire per-event sequence: the guard acquired before the
test is released only after the redeem request, the location lookup, the
log flush and the notification dispatch, as the last action of the event. -/
theorem lock_held_across_downstream (cfg : Config)
    (ec : Message → Option String) (seen : List String) (d : Delivery)
    (c : String) (hbl : cfg.isGuildBlacklisted d.msg.guildId = false)
    (hec : ec d.msg = some c) (hfresh : c ∉ seen) :
    (Handler.message cfg ec seen d).trace =
      [Action.lockAcquire, Action.insertCode c, Action.redeem c,
        Action.locate, Action.flush] ++
      (if cfg.webhook.isSome then [Action.notify] else []) ++
      [Action.lockRelease] ∧
    lockReleasedBeforeDownstream (Handler.message cfg ec seen d).trace =
      false := by
  have ht : (Handler.message cfg ec seen d).trace =
      [Action.lockAcquire, Action.insertCode c, Action.redeem c,
        Action.locate, Action.flush] ++
      (if cfg.webhook.isSome then [Action.notify] else []) ++
      [Action.lockRelease] := by
    simp [Handler.message, hbl, hec, hfresh]
  exact ⟨ht, by rw [ht]; rfl⟩

/-- C4 amended witness: on the fixture delivery the last trace action is
the release, after redeem, locate, flush and notify. -/
theorem lock_held_across_downstream_witness :
    (Handler.message cfgW extractW [] deliveryW).trace =
      [Action.lockAcquire, Action.insertCode "AbCdEfGhIjKlMnOp",
        Action.redeem "AbCdEfGhIjKlMnOp", Action.locate, Action.flush] ++
      (if cfgW.webhook.isSome then [Action.notify] else []) ++
      [Action.lockRelease] ∧
    lockReleasedBeforeDownstream
      (Handler.message cfgW extractW [] deliveryW).trace = false :=
  lock_held_across_downstream cfgW extractW [] deliveryW "AbCdEfGhIjKlMnOp"
    rfl rfl (by decide)

/-- Helper for C8: LogBlock::send on a failed location lookup, for a block
whose elapsed time is already frozen. -/
theorem send_error_location (b : LogBlock) (now : Nat) (sender : String)
    (e : Nat) (he : b.elapsed = some e) :
    b.send now (.error ()) sender =
      some (b.add_message .Error "Failed requesting location for event."
          false,
        { time := now, profileName := b.profile.username,
          location := Location.defaultLoc, sender := sender,
          messages := (b.messages ++
            [LogMessage.mk "Failed requesting location for event."
              Level.Error false]),
          elapsedMs := e }) := by
  simp [LogBlock.send, he, LogBlock.add_message]

/-- C8: when the location lookup fails for an event that owns its code, the
pipeline does not abort: exactly one log block is flushed, the flushed
block's header carries the default location, and an error entry about the
failed lookup was appended to it. -/
theorem location_failure_degrades (cfg : Config)
    (ec : Message → Option String) (seen : List String) (d : Delivery)
    (c : String) (hbl : cfg.isGuildBlacklisted d.msg.guildId = false)
    (hec : ec d.msg = some c) (hfresh : c ∉ seen)
    (hloc : d.loc = .error ()) :
    (∃ out : FlushedBlock,
      (Handler.message cfg ec seen d).flushed = some out ∧
      out.location = Location.defaultLoc ∧
      LogMessage.mk "Failed requesting location for event." Level.Error false
        ∈ out.messages) ∧
    flushCount (Handler.message cfg ec seen d).trace = 1 := by
  constructor
  · simp only [Handler.message, hbl, hec, hfresh, Bool.false_eq_true,
      if_false, if_neg hfresh]
    rw [hloc, send_error_location _ _ _ _ rfl]
    exact ⟨_, rfl, rfl, by simp⟩
  · have ht : (Handler.message cfg ec seen d).trace =
        [Action.lockAcquire, Action.insertCode c, Action.redeem c,
          Action.locate, Action.flush] ++
        (if cfg.webhook.isSome then [Action.notify] else []) ++
        [Action.lockRelease] := by
      simp [Handler.message, hbl, hec, hfresh]
    rw [ht]
    rcases cfg.webhook with _ | u <;>
      simp [flushCount, List.countP_append, List.countP_cons]

/-- C8 witness: a concrete delivery of a fresh code whose location lookup
fails still flushes exactly one block, with the default location and the
error entry. -/
theorem location_failure_degrades_witness :
    (∃ out : FlushedBlock,
      (Handler.message cfgW extractW []
          { deliveryW with loc := .error () }).flushed = some out ∧
      out.location = Location.defaultLoc ∧
      LogMessage.mk "Failed requesting location for event." Level.Error false
        ∈ out.messages) ∧
    flushCount (Handler.message cfgW extractW []
        { deliveryW with loc := .error () }).trace = 1 :=
  location_failure_degrades cfgW extractW []
    { deliveryW with loc := .error () } "AbCdEfGhIjKlMnOp" rfl rfl
    (by decide) rfl

/-- A delivery passes the blacklist filter and extracts the code c. -/
def hits (cfg : Config) (ec : Message → Option String) (c : String)
    (d : Delivery) : Prop :=
  cfg.isGuildBlacklisted d.msg.guildId = false ∧ ec d.msg = some c

instance hitsDecidable (cfg : Config) (ec : Message → Option String)
    (c : String) (d : Delivery) : Decidable (hits cfg ec c d) := by
  unfold hits
  infer_instance

theorem redeemCount_append (t1 t2 : List Action) (c : String) :
    redeemCount (t1 ++ t2) c = redeemCount t1 c + redeemCount t2 c := by
  simp [redeemCount]

/-- One step of the pipeline redeems c exactly when c is fresh and this
delivery passes the filter and extracts c; afterwards c is in the set
exactly when it was before or this delivery extracted it. -/
theorem message_redeemCount_seen (cfg : Config)
    (ec : Message → Option String) (seen : List String) (d : Delivery)
    (c : String) :
    redeemCount (Handler.message cfg ec seen d).trace c =
      (if c ∉ seen ∧ hits cfg ec c d then 1 else 0) ∧
    ((c ∈ (Handler.message cfg ec seen d).seen) ↔
      (c ∈ seen ∨ hits cfg ec c d)) := by
  cases hbl : cfg.isGuildBlacklisted d.msg.guildId with
  | true => simp [Handler.message, hbl, redeemCount, hits]
  | false =>
    rcases hec : ec d.msg with _ | g
    · simp [Handler.message, hbl, hec, redeemCount, hits]
    · by_cases hgc : g = c
      · subst hgc
        by_cases hg : g ∈ seen
        · simp [Handler.message, hbl, hec, hg, redeemCount, hits]
        · simp only [Handler.message, hbl, hec, Bool.false_eq_true, if_false,
            if_neg hg]
          constructor
          · rw [redeemCount_append, redeemCount_append]
            rcases cfg.webhook with _ | u <;>
              simp [redeemCount, List.countP_cons, hg, hits, hbl, hec]
          · simp [hg, hits, hbl, hec]
      · by_cases hg : g ∈ seen
        · simp [Handler.message, hbl, hec, hg, redeemCount, hits, hgc]
        · simp only [Handler.message, hbl, hec, Bool.false_eq_true, if_false,
            if_neg hg]
          constructor
          · rw [redeemCount_append, redeemCount_append]
            rcases cfg.webhook with _ | u <;>
              simp [redeemCount, List.countP_cons, hits, hbl, hec, hgc]
          · simp [hits, hbl, hec, hgc, List.mem_cons, Ne.symm hgc]

/-- Across a whole run from a given dedup set, a code is redeemed exactly
once when it was fresh and some delivery extracts it, and never otherwise;
the final set holds exactly the initial codes and the extracted ones. -/
theorem run_redeemCount_spec (cfg : Config) (ec : Message → Option String)
    (ds : List Delivery) : ∀ (seen : List String) (c : String),
    redeemCount (runDeliveries cfg ec seen ds).2 c =
      (if c ∉ seen ∧ ∃ d ∈ ds, hits cfg ec c d then 1 else 0) ∧
    ((c ∈ (runDeliveries cfg ec seen ds).1) ↔
      (c ∈ seen ∨ ∃ d ∈ ds, hits cfg ec c d)) := by
  induction ds with
  | nil => intro seen c; simp [runDeliveries, redeemCount]
  | cons d ds ih =>
    intro seen c
    obtain ⟨h1, h2⟩ := message_redeemCount_seen cfg ec seen d c
    obtain ⟨h3, h4⟩ := ih (Handler.message cfg ec seen d).seen c
    constructor
    · show redeemCount ((Handler.message cfg ec seen d).trace ++
        (runDeliveries cfg ec (Handler.message cfg ec seen d).seen ds).2) c
        = _
      rw [redeemCount_append, h1, h3]
      by_cases hc : c ∈ seen
      · have hmid : c ∈ (Handler.message cfg ec seen d).seen :=
          h2.mpr (Or.inl hc)
        simp [hc, hmid]
      · by_cases hd : hits cfg ec c d
        · have hmid : c ∈ (Handler.message cfg ec seen d).seen :=
            h2.mpr (Or.inr hd)
          simp [hc, hd, hmid, List.exists_mem_cons_iff]
        · have hnm : c ∉ (Handler.message cfg ec seen d).seen := by
            intro h
            exact (h2.mp h).elim hc hd
          simp [hc, hd, hnm, List.exists_mem_cons_iff]
    · show (c ∈ (runDeliveries cfg ec
        (Handler.message cfg ec seen d).seen ds).1) ↔ _
      rw [h4, h2]
      simp [List.exists_mem_cons_iff, or_assoc]

/-- C1: for every code string, across any number of deliveries in any order
(the dedup mutex serializes concurrent handlers, so any concurrent schedule
equals some serial order), the pipeline issues at most one redeem request
for the code; a code already in the set is never redeemed; a fresh code
that some passing delivery extracts is redeemed exactly once; and once the
code is in the set, no later run of deliveries ever redeems it again. -/
theorem code_redeemed_at_most_once (cfg : Config)
    (ec : Message → Option String) (seen : List String)
    (ds ds2 : List Delivery) (c : String) :
    redeemCount (runDeliveries cfg ec seen ds).2 c ≤ 1 ∧
    (c ∈ seen → redeemCount (runDeliveries cfg ec seen ds).2 c = 0) ∧
    (c ∉ seen → (∃ d ∈ ds, hits cfg ec c d) →
      redeemCount (runDeliveries cfg ec seen ds).2 c = 1) ∧
    (c ∈ (runDeliveries cfg ec seen ds).1 →
      redeemCount
        (runDeliveries cfg ec (runDeliveries cfg ec seen ds).1 ds2).2 c =
        0) := by
  obtain ⟨h1, _⟩ := run_redeemCount_spec cfg ec ds seen c
  obtain ⟨h3, _⟩ :=
    run_redeemCount_spec cfg ec ds2 (runDeliveries cfg ec seen ds).1 c
  refine ⟨?_, ?_, ?_, ?_⟩
  · rw [h1]
    split <;> simp
  · intro hc
    rw [h1, if_neg]
    simp [hc]
  · intro hc hd
    rw [h1, if_pos ⟨hc, hd⟩]
  · intro hc
    rw [h3, if_neg]
    simp [hc]

/-- A second delivery of the same code, as from another session. -/
def profileW2 : Profile := { username := "finder2", avatar := none, id := "43" }

def respW400 : HttpResponse :=
  { status := 400, canonicalReason := some "Bad Request", body := none }

def deliveryW2 : Delivery :=
  { deliveryW with profile := profileW2, resp := some respW400 }

/-- C1 witness: two deliveries of the same fresh code produce exactly one
redeem request for it. -/
theorem code_redeemed_at_most_once_witness :
    redeemCount
      (runDeliveries cfgW extractW [] [deliveryW, deliveryW2]).2
      "AbCdEfGhIjKlMnOp" = 1 :=
  (code_redeemed_at_most_once cfgW extractW [] [deliveryW, deliveryW2] []
      "AbCdEfGhIjKlMnOp").2.2.1 (by decide)
    ⟨deliveryW, List.mem_cons_self _ _, rfl, rfl⟩

end Longshot
